import Mathlib

/-!
Verification development for `scripts/fetch_news.py` (gfv-news-feed).

The script fetches Google News RSS results for a fixed keyword list, merges
them into a JSON store of article records (deduplicated by `link`, pruned to a
180-day lookback window), and renders a static HTML page.

This file shallowly embeds the script's data model and operations:

* Python `datetime` values become `PyDateTime` (civil fields plus an optional
  UTC offset; `none` models a naive datetime).  Aware datetimes compare by
  their instant, modelled as microseconds since the Unix epoch.
* `datetime.fromisoformat`, `email.utils.parsedate_to_datetime` and
  `datetime.isoformat` are modelled as executable functions on the formats the
  script encounters (documented at each definition).  Fallible parsing becomes
  `Option`: `none` models a raised `ValueError`.
* The JSON store file is modelled by its parsed JSON document (`JValue`);
  `json.dump`/`json.load` are mutually inverse on the documents the script
  writes, so the textual layer is the identity on this data.
* Article dicts become the `Article` structure.  The fetcher and the merge
  pipeline always produce dicts with keys `title`, `link`, `description`,
  `published`, `source` (plus optionally `keyword`), which is the shape the
  structure fixes.
-/

namespace FetchNews

/-- Model of Python `str.strip()` (drop leading and trailing whitespace). -/
def pyStrip (s : String) : String :=
  String.mk (((s.data.dropWhile Char.isWhitespace).reverse.dropWhile Char.isWhitespace).reverse)

def digitVal (c : Char) : Nat := c.toNat - 48

def digitsToNat (cs : List Char) : Nat :=
  cs.foldl (fun n c => n * 10 + digitVal c) 0

/-- Consume exactly `k` ASCII digits from the front of `cs`. -/
def takeKDigits (k : Nat) (cs : List Char) : Option (Nat × List Char) :=
  let pre := cs.take k
  if pre.length == k && pre.all Char.isDigit then some (digitsToNat pre, cs.drop k) else none

def isLeapYear (y : Nat) : Bool :=
  (y % 4 == 0 && y % 100 != 0) || y % 400 == 0

def daysInMonth (y m : Nat) : Nat :=
  if m == 2 then (if isLeapYear y then 29 else 28)
  else if m == 4 || m == 6 || m == 9 || m == 11 then 30
  else 31

/-- Days since 1970-01-01 of a civil date (proleptic Gregorian; the standard
days-from-civil algorithm, valid for `y ≥ 1`). -/
def daysFromCivil (y m d : Nat) : Int :=
  let yAdj : Nat := if m ≤ 2 then y - 1 else y
  let era : Nat := yAdj / 400
  let yoe : Nat := yAdj % 400
  let mp : Nat := if m > 2 then m - 3 else m + 9
  let doy : Nat := (153 * mp + 2) / 5 + (d - 1)
  let doe : Nat := yoe * 365 + yoe / 4 - yoe / 100 + doy
  (era * 146097 + doe : Int) - 719468

/-- Inverse of `daysFromCivil` (valid for dates from year 1 on). -/
def civilFromDays (z : Int) : Nat × Nat × Nat :=
  let n : Nat := (z + 719468).toNat
  let era : Nat := n / 146097
  let doe : Nat := n % 146097
  let yoe : Nat := (doe - doe / 1460 + doe / 36524 - doe / 146096) / 365
  let y : Nat := yoe + era * 400
  let doy : Nat := doe - (365 * yoe + yoe / 4 - yoe / 100)
  let mp : Nat := (5 * doy + 2) / 153
  let d : Nat := doy - (153 * mp + 2) / 5 + 1
  let m : Nat := if mp < 10 then mp + 3 else mp - 9
  (if m ≤ 2 then y + 1 else y, m, d)

/-- Model of a Python `datetime`: civil fields plus an optional UTC offset in
seconds; `tzOffsetSeconds = none` models a naive datetime. -/
structure PyDateTime where
  year : Nat
  month : Nat
  day : Nat
  hour : Nat
  minute : Nat
  second : Nat
  microsecond : Nat
  tzOffsetSeconds : Option Int
deriving Repr, DecidableEq

/-- The instant of an aware datetime, in microseconds since the Unix epoch
(a naive datetime is read with offset 0).  Python compares aware datetimes by
exactly this quantity. -/
def PyDateTime.instantMicros (dt : PyDateTime) : Int :=
  (daysFromCivil dt.year dt.month dt.day * 86400
      + ((dt.hour * 3600 + dt.minute * 60 + dt.second : Nat) : Int)
      - dt.tzOffsetSeconds.getD 0) * 1000000 + (dt.microsecond : Int)

/-- The range checks the `datetime` constructor performs (year 1–9999, month
1–12, day within the month, time fields in range). -/
def validDateTime (y mo d h mi s : Nat) : Bool :=
  decide (1 ≤ y ∧ y ≤ 9999 ∧ 1 ≤ mo ∧ mo ≤ 12 ∧ 1 ≤ d ∧ d ≤ daysInMonth y mo ∧
    h ≤ 23 ∧ mi ≤ 59 ∧ s ≤ 59)

/-- Fractional-seconds part `.dddddd` (1–6 digits, right-padded to
microseconds). -/
def parseFraction (cs : List Char) : Option (Nat × List Char) :=
  let ds := cs.takeWhile Char.isDigit
  if ds.length == 0 || ds.length > 6 then none
  else some (digitsToNat (ds ++ List.replicate (6 - ds.length) '0'), cs.drop ds.length)

/-- UTC-offset suffix of an ISO string: `Z`, `±HH:MM[:SS]` or `±HHMM`
(returns the offset in seconds and the remaining input). -/
def parseTzOffset (cs : List Char) : Option (Int × List Char) :=
  match cs with
  | [] => none
  | c :: rest =>
    if c = 'Z' || c = 'z' then some (0, rest)
    else if c = '+' || c = '-' then
      (takeKDigits 2 rest).bind fun (hh, cs1) =>
        ((match cs1 with
         | ':' :: cs2 =>
           (takeKDigits 2 cs2).bind fun (mm, cs3) =>
             ((match cs3 with
              | ':' :: cs4 => (takeKDigits 2 cs4).map fun (ss, cs5) => (mm, ss, cs5)
              | _ => some (mm, 0, cs3)) : Option (Nat × Nat × List Char))
         | _ =>
           match takeKDigits 2 cs1 with
           | some (mm, cs2) => some (mm, 0, cs2)
           | none => some (0, 0, cs1)) : Option (Nat × Nat × List Char)).bind fun (mm, ss, cs2) =>
          if hh ≤ 23 && mm ≤ 59 && ss ≤ 59 then
            let total : Int := (hh * 3600 + mm * 60 + ss : Nat)
            some (if c = '-' then -total else total, cs2)
          else none
    else none

/-- Time-of-day part `HH[:MM[:SS[.ffffff]]]` of an ISO string. -/
def parseIsoTime (cs : List Char) : Option (Nat × Nat × Nat × Nat × List Char) :=
  (takeKDigits 2 cs).bind fun (h, cs1) =>
    match cs1 with
    | ':' :: cs2 =>
      (takeKDigits 2 cs2).bind fun (mi, cs3) =>
        ((match cs3 with
         | ':' :: cs4 =>
           (takeKDigits 2 cs4).bind fun (s, cs5) =>
             ((match cs5 with
              | '.' :: cs6 => (parseFraction cs6).map fun (micro, cs7) => (s, micro, cs7)
              | ',' :: cs6 => (parseFraction cs6).map fun (micro, cs7) => (s, micro, cs7)
              | _ => some (s, 0, cs5)) : Option (Nat × Nat × List Char)).map
               fun (s, micro, cs6) => (mi, s, micro, cs6)
         | _ => some (mi, 0, 0, cs3)) : Option (Nat × Nat × Nat × List Char)).map
          fun (mi, s, micro, cs4) => (h, mi, s, micro, cs4)
    | _ => some (h, 0, 0, 0, cs1)

/-- Model of `datetime.fromisoformat`, covering the extended ISO-8601 formats
the script encounters: `YYYY-MM-DD`, optionally followed by `T` or a space and
`HH[:MM[:SS[.ffffff]]]`, optionally followed by `Z`, `±HH:MM[:SS]` or `±HHMM`.
Any other input — in particular anything `fromisoformat` would reject with a
`ValueError` — yields `none`. -/
def fromisoformat (s : String) : Option PyDateTime :=
  (takeKDigits 4 s.data).bind fun (y, cs1) =>
    match cs1 with
    | '-' :: cs2 =>
      (takeKDigits 2 cs2).bind fun (mo, cs3) =>
        match cs3 with
        | '-' :: cs4 =>
          (takeKDigits 2 cs4).bind fun (d, cs5) =>
            match cs5 with
            | [] =>
              if validDateTime y mo d 0 0 0 then
                some ⟨y, mo, d, 0, 0, 0, 0, none⟩
              else none
            | sep :: cs6 =>
              if sep = 'T' || sep = ' ' then
                (parseIsoTime cs6).bind fun (h, mi, s, micro, cs7) =>
                  match cs7 with
                  | [] =>
                    if validDateTime y mo d h mi s then
                      some ⟨y, mo, d, h, mi, s, micro, none⟩
                    else none
                  | _ =>
                    (parseTzOffset cs7).bind fun (off, cs8) =>
                      match cs8 with
                      | [] =>
                        if validDateTime y mo d h mi s then
                          some ⟨y, mo, d, h, mi, s, micro, some off⟩
                        else none
                      | _ => none
              else none
        | _ => none
    | _ => none

/-- Month names recognised by `email.utils` (3-letter abbreviations followed
by full names, case-insensitive; the index modulo 12 is the month). -/
def MONTH_NAMES : List String :=
  ["jan", "feb", "mar", "apr", "may", "jun", "jul", "aug", "sep", "oct", "nov", "dec",
   "january", "february", "march", "april", "may", "june", "july", "august",
   "september", "october", "november", "december"]

def monthFromName (t : String) : Option Nat :=
  match MONTH_NAMES.indexOf? t.toLower with
  | some i => some (if i + 1 > 12 then i + 1 - 12 else i + 1)
  | none => none

def DAY_NAMES : List String := ["mon", "tue", "wed", "thu", "fri", "sat", "sun"]

/-- The timezone-name table of `email.utils` (offsets in seconds). -/
def TZ_NAME_TABLE : List (String × Int) :=
  [("UT", 0), ("UTC", 0), ("GMT", 0), ("Z", 0),
   ("AST", -4 * 3600), ("ADT", -3 * 3600), ("EST", -5 * 3600), ("EDT", -4 * 3600),
   ("CST", -6 * 3600), ("CDT", -5 * 3600), ("MST", -7 * 3600), ("MDT", -6 * 3600),
   ("PST", -8 * 3600), ("PDT", -7 * 3600)]

def parseZoneToken (t : String) : Option Int :=
  match t.data with
  | '+' :: ds =>
    if ds.length == 4 && ds.all Char.isDigit then
      some ((digitsToNat (ds.take 2) * 3600 + digitsToNat (ds.drop 2) * 60 : Nat) : Int)
    else none
  | '-' :: ds =>
    if ds.length == 4 && ds.all Char.isDigit then
      some (-((digitsToNat (ds.take 2) * 3600 + digitsToNat (ds.drop 2) * 60 : Nat) : Int))
    else none
  | _ =>
    match TZ_NAME_TABLE.find? (fun p => p.1 == t.toUpper) with
    | some p => some p.2
    | none => none

/-- A run of 1–2 ASCII digits standing alone in a token. -/
def parseNatToken (t : String) : Option Nat :=
  if t.length ≥ 1 && t.length ≤ 2 && t.data.all Char.isDigit then some (digitsToNat t.data)
  else none

def parseYearToken (t : String) : Option Nat :=
  if t.length == 4 && t.data.all Char.isDigit then some (digitsToNat t.data) else none

def parseRfcTime (t : String) : Option (Nat × Nat × Nat) :=
  match t.split (· = ':') with
  | [hh, mm, ss] =>
    (parseNatToken hh).bind fun h => (parseNatToken mm).bind fun mi =>
      (parseNatToken ss).map fun s => (h, mi, s)
  | [hh, mm] =>
    (parseNatToken hh).bind fun h => (parseNatToken mm).map fun mi => (h, mi, 0)
  | _ => none

def splitWs (s : String) : List String :=
  (s.split Char.isWhitespace).filter (· ≠ "")

/-- Model of `email.utils.parsedate_to_datetime` on RFC-2822 dates of the form
`[Www, ]DD Mon YYYY HH:MM[:SS] ZONE` — an optional weekday, day, month name,
4-digit year, time, and a zone that is `±HHMM` or a known name (`GMT`, `UT`,
US zones, …).  The model requires the zone: without one the real function
returns a naive datetime whose later `astimezone` conversion depends on the
host timezone, which is outside the model (news-feed dates always carry
`GMT`).  Unparseable input — a raised `ValueError` in Python — is `none`. -/
def parsedate_to_datetime (s : String) : Option PyDateTime :=
  let toks0 := splitWs s
  let toks := match toks0 with
    | [] => toks0
    | t :: rest => if t.endsWith "," || DAY_NAMES.contains t.toLower then rest else toks0
  match toks with
  | [dayT, monT, yearT, timeT, zoneT] =>
    (parseNatToken dayT).bind fun day =>
      (monthFromName monT).bind fun month =>
        (parseYearToken yearT).bind fun year =>
          (parseRfcTime timeT).bind fun (h, mi, sec) =>
            (parseZoneToken zoneT).bind fun off =>
              if validDateTime year month day h mi sec then
                some ⟨year, month, day, h, mi, sec, 0, some off⟩
              else none
  | _ => none

/-- String of `n` left-padded with zeros to width `w`. -/
def padNum (w n : Nat) : String :=
  let s := toString n
  String.mk (List.replicate (w - s.length) '0') ++ s

/-- Embedding of `dt.astimezone(timezone.utc).isoformat()` as a function of the instant:
the canonical `YYYY-MM-DDTHH:MM:SS[.ffffff]+00:00` rendering. -/
def isoformatUtc (t : Int) : String :=
  let micro : Nat := (Int.emod t 1000000).toNat
  let secs : Int := Int.ediv t 1000000
  let sod : Nat := (Int.emod secs 86400).toNat
  let ymd := civilFromDays (Int.ediv secs 86400)
  padNum 4 ymd.1 ++ "-" ++ padNum 2 ymd.2.1 ++ "-" ++ padNum 2 ymd.2.2 ++ "T" ++
    padNum 2 (sod / 3600) ++ ":" ++ padNum 2 (sod % 3600 / 60) ++ ":" ++ padNum 2 (sod % 60) ++
    (if micro == 0 then "" else "." ++ padNum 6 micro) ++ "+00:00"

/-- Embedding of `rfc2822_to_iso` (fetch_news.py:53-59): convert an RFC-2822 date string to
ISO-8601 UTC; `None` — here `none` — on any parse failure instead of raising. -/
def rfc2822_to_iso (date_str : String) : Option String :=
  match parsedate_to_datetime date_str with
  | none => none
  | some dt => some (isoformatUtc dt.instantMicros)

/-- An article record: the dict shape built by `fetch_google_news_rss` and
stored in `news_data.json`.  `keyword` is optional because `main` adds that
key only to freshly fetched records. -/
structure Article where
  title : String
  link : String
  description : String
  published : String
  source : String
  keyword : Option String
deriving Repr, DecidableEq

def DAYS_LOOKBACK : Nat := 180

/-- The per-record keep test of `prune_old_articles` (fetch_news.py:118-130):
parse `published` with `fromisoformat` (a `ValueError` — `none` — drops the
record), treat a naive timestamp as UTC, and keep the record iff its instant
is not before `now - days`.  `now` is the instant of
`datetime.now(timezone.utc)` in microseconds. -/
def keepArticle (now : Int) (days : Nat) (a : Article) : Bool :=
  let cutoff : Int := now - (days : Int) * 86400 * 1000000
  match fromisoformat a.published with
  | none => false
  | some dt =>
    let dtAware := match dt.tzOffsetSeconds with
      | none => { dt with tzOffsetSeconds := some 0 }
      | some _ => dt
    decide (cutoff ≤ dtAware.instantMicros)

/-- Embedding of `prune_old_articles` (fetch_news.py:118-130).  The source's default
argument for `days` is written `DAYSLOOKBACK`, a name the script never
defines (the constant on line 28 is `DAYS_LOOKBACK`), so loading the module
raises `NameError`; the model takes `days` explicitly and callers pass the
intended `DAYS_LOOKBACK`. -/
def prune_old_articles (now : Int) (articles : List Article) (days : Nat) : List Article :=
  articles.filter (keepArticle now days)

/-- The loop of `deduplicate` (fetch_news.py:133-141), with the `seen` set of
links made explicit. -/
def dedupSeen (seen : List String) : List Article → List Article
  | [] => []
  | a :: rest =>
    if a.link ∈ seen then dedupSeen seen rest
    else a :: dedupSeen (a.link :: seen) rest

/-- Embedding of `deduplicate` (fetch_news.py:133-141): keep the first record for each
distinct `link`. -/
def deduplicate (articles : List Article) : List Article :=
  dedupSeen [] articles

/-- Embedding of `merge_articles` (fetch_news.py:144-148): concatenate, deduplicate, prune
(with the intended 180-day lookback; see `prune_old_articles` on the source's
misspelt default). -/
def merge_articles (now : Int) (existing new_batch : List Article) : List Article :=
  prune_old_articles now (deduplicate (existing ++ new_batch)) DAYS_LOOKBACK

/-! ### Lemmas about `deduplicate` -/

theorem dedupSeen_filter_key (key : String) :
    ∀ (l : List Article) (seen : List String),
      (dedupSeen seen l).filter (fun a => a.link == key)
        = if key ∈ seen then [] else (l.find? (fun a => a.link == key)).toList := by
  intro l
  induction l with
  | nil => intro seen; simp [dedupSeen]
  | cons a rest ih =>
    intro seen
    rw [dedupSeen]
    by_cases hmem : a.link ∈ seen
    · rw [if_pos hmem, ih]
      by_cases hkey : key ∈ seen
      · simp [hkey]
      · have hne : (a.link == key) = false := by
          simp only [beq_eq_false_iff_ne, ne_eq]
          intro h; exact hkey (h ▸ hmem)
        simp [hkey, List.find?_cons, hne]
    · rw [if_neg hmem, List.filter_cons, ih]
      by_cases heq : a.link = key
      · subst heq
        simp [List.find?_cons, hmem]
      · have hne : (a.link == key) = false := by simpa using heq
        have hiff : (key ∈ a.link :: seen) ↔ key ∈ seen := by
          constructor
          · intro h
            rcases List.mem_cons.mp h with h1 | h2
            · exact absurd h1.symm heq
            · exact h2
          · exact List.mem_cons_of_mem _
        simp [hne, List.find?_cons, hiff]

theorem mem_dedupSeen_subset {a : Article} :
    ∀ (l : List Article) (seen : List String), a ∈ dedupSeen seen l → a ∈ l := by
  intro l
  induction l with
  | nil => intro seen h; simp [dedupSeen] at h
  | cons b rest ih =>
    intro seen h
    rw [dedupSeen] at h
    by_cases hmem : b.link ∈ seen
    · rw [if_pos hmem] at h
      exact List.mem_cons_of_mem _ (ih _ h)
    · rw [if_neg hmem] at h
      rcases List.mem_cons.mp h with h1 | h2
      · exact h1 ▸ List.mem_cons_self _ _
      · exact List.mem_cons_of_mem _ (ih _ h2)

theorem dedupSeen_links_nodup :
    ∀ (l : List Article) (seen : List String),
      ((dedupSeen seen l).map (fun a => a.link)).Nodup ∧
        ∀ a ∈ dedupSeen seen l, a.link ∉ seen := by
  intro l
  induction l with
  | nil => intro seen; simp [dedupSeen]
  | cons b rest ih =>
    intro seen
    rw [dedupSeen]
    by_cases hmem : b.link ∈ seen
    · rw [if_pos hmem]; exact ih seen
    · rw [if_neg hmem]
      obtain ⟨hnd, hout⟩ := ih (b.link :: seen)
      refine ⟨?_, ?_⟩
      · simp only [List.map_cons, List.nodup_cons]
        refine ⟨?_, hnd⟩
        intro hcon
        obtain ⟨c, hc, hlink⟩ := List.mem_map.mp hcon
        exact (hout c hc) (hlink ▸ List.mem_cons_self _ _)
      · intro a ha
        rcases List.mem_cons.mp ha with h1 | h2
        · exact h1 ▸ hmem
        · exact fun hs => (hout a h2) (List.mem_cons_of_mem _ hs)

theorem dedupSeen_eq_self :
    ∀ (l : List Article) (seen : List String),
      ((l.map (fun a => a.link)).Nodup) → (∀ a ∈ l, a.link ∉ seen) →
        dedupSeen seen l = l := by
  intro l
  induction l with
  | nil => intro seen _ _; rfl
  | cons b rest ih =>
    intro seen hnd hout
    rw [List.map_cons, List.nodup_cons] at hnd
    obtain ⟨hb, hrest⟩ := hnd
    rw [dedupSeen, if_neg (hout b (List.mem_cons_self _ _))]
    congr 1
    refine ih _ hrest ?_
    intro a ha
    simp only [List.mem_cons, not_or]
    refine ⟨?_, hout a (List.mem_cons_of_mem _ ha)⟩
    intro heq
    exact hb (List.mem_map.mpr ⟨a, ha, heq⟩)

theorem deduplicate_links_nodup (l : List Article) :
    ((deduplicate l).map (fun a => a.link)).Nodup :=
  (dedupSeen_links_nodup l []).1

theorem deduplicate_eq_self (l : List Article)
    (h : ((l.map (fun a => a.link)).Nodup)) : deduplicate l = l :=
  dedupSeen_eq_self l [] h (by simp)

/-! ### Concrete records used in counterexamples and witnesses -/

/-- A record with the given link and published date (other fields fixed). -/
def mkArt (link published : String) : Article :=
  { title := "t", link := link, description := "", published := published,
    source := "s", keyword := none }

/-- A concrete clock value: the instant 2026-06-01T00:00:00+00:00, in
microseconds since the epoch (so the 180-day cutoff is 2025-12-03). -/
def cexNow : Int := daysFromCivil 2026 6 1 * 86400 * 1000000

/-- Published 2025-01-01: more than 180 days before `cexNow`. -/
def staleArt : Article := mkArt "https://ex.com/a" "2025-01-01T00:00:00+00:00"

/-- Same link as `staleArt`, published 2026-05-30: within the window. -/
def freshArt : Article := mkArt "https://ex.com/a" "2026-05-30T00:00:00+00:00"

/-- A record whose `published` field is not a parseable ISO timestamp. -/
def badArt : Article := mkArt "https://ex.com/b" "not-a-date"

/-- A record with a parseable but timezone-naive `published` field. -/
def naiveArt : Article := mkArt "https://ex.com/n" "2026-05-30T12:00:00"

/-- A record within the window, distinct link. -/
def withinArt : Article := mkArt "https://ex.com/w" "2026-05-30T12:00:00+00:00"

/-! ### Claim theorems: store pipeline -/

/-- C1, counterexample.  The claim says that for all lists, the merge keeps
exactly one record per distinct link — the first occurrence in
`existing ++ incoming` — and in particular that a record from `existing`
wins over an incoming record with the same link.  But `merge_articles`
prunes after deduplicating: here `existing` and `incoming` share the link
`https://ex.com/a` (stale in `existing`, fresh in `incoming`), the stale
first occurrence wins deduplication and is then pruned, so the merge holds
no record at all for that link, not exactly one. -/
theorem merge_link_claim_cex :
    merge_articles cexNow [staleArt] [freshArt] = [] := by decide

/-- C1, amended.  For every link value, the records of
`merge_articles existing incoming` with that link are the first occurrence
of the link in `existing ++ incoming` — kept iff that first occurrence
survives the lookback filter.  In particular at most one record per link
survives; a surviving record is always the first occurrence (existing wins
over incoming, and within incoming the first occurrence wins). -/
theorem merge_link_characterization (now : Int) (existing incoming : List Article)
    (key : String) :
    (merge_articles now existing incoming).filter (fun a => a.link == key)
      = (((existing ++ incoming).find? (fun a => a.link == key)).toList).filter
          (keepArticle now DAYS_LOOKBACK) := by
  unfold merge_articles prune_old_articles
  have h1 : (deduplicate (existing ++ incoming)).filter (fun a => a.link == key)
      = ((existing ++ incoming).find? (fun a => a.link == key)).toList := by
    simpa [deduplicate] using dedupSeen_filter_key key (existing ++ incoming) []
  rw [← h1, List.filter_filter, List.filter_filter]
  exact List.filter_congr (by intro x _; exact Bool.and_comm _ _)

/-- C3: merge is idempotent for a fixed clock value: merging the result of a
merge with an empty batch returns it unchanged. -/
theorem merge_articles_idempotent (now : Int) (A B : List Article) :
    merge_articles now (merge_articles now A B) [] = merge_articles now A B := by
  unfold merge_articles prune_old_articles
  rw [List.append_nil]
  have hnd : (((deduplicate (A ++ B)).filter (keepArticle now DAYS_LOOKBACK)).map
      (fun a => a.link)).Nodup :=
    List.Nodup.sublist ((List.filter_sublist _).map _) (deduplicate_links_nodup (A ++ B))
  rw [deduplicate_eq_self _ hnd, List.filter_filter]
  exact List.filter_congr (by intro x _; exact Bool.and_self _)

/-- C4, counterexample.  Merging with an empty incoming batch is not a pure
prune: `merge_articles` also deduplicates `existing`, so when `existing`
holds two in-window records with the same link, the merge drops one while
`prune_old_articles` keeps both. -/
theorem merge_empty_not_pure_prune_cex :
    merge_articles cexNow [freshArt, freshArt] [] ≠
      prune_old_articles cexNow [freshArt, freshArt] DAYS_LOOKBACK := by decide

/-- C4, amended: when the links of `existing` are pairwise distinct — as in
any store that `merge_articles` itself produced — merging with an empty
incoming batch is exactly a prune of `existing`: no record is added,
removed for any reason other than aging out, or modified. -/
theorem merge_empty_is_prune_of_nodup_links (now : Int) (existing : List Article)
    (h : ((existing.map (fun a => a.link)).Nodup)) :
    merge_articles now existing [] = prune_old_articles now existing DAYS_LOOKBACK := by
  unfold merge_articles
  rw [List.append_nil, deduplicate_eq_self _ h]

/-- Witness for the amended C4 at a concrete store. -/
theorem merge_empty_is_prune_witness :
    merge_articles cexNow [freshArt, withinArt] [] =
      prune_old_articles cexNow [freshArt, withinArt] DAYS_LOOKBACK :=
  merge_empty_is_prune_of_nodup_links cexNow [freshArt, withinArt] (by decide)

/-- C2 (intended behaviour of `prune_old_articles`, with the misspelt
default `DAYSLOOKBACK` read as the intended `DAYS_LOOKBACK = 180`): a record
whose parsed `published` instant is strictly older than `now` minus 180 days
is absent from the result, a record at or after that cutoff is kept whenever
it is in the input, and the boundary instant itself is kept (the
implementation's consistent, inclusive boundary policy `dt >= cutoff`). -/
theorem prune_lookback_intended (now : Int) (arts : List Article) (a : Article)
    (dt : PyDateTime) (hparse : fromisoformat a.published = some dt)
    (haware : dt.tzOffsetSeconds ≠ none) :
    (a ∈ prune_old_articles now arts DAYS_LOOKBACK ↔
      a ∈ arts ∧ now - 180 * 86400 * 1000000 ≤ dt.instantMicros) := by
  obtain ⟨off, hoff⟩ := Option.ne_none_iff_exists.mp haware
  rw [prune_old_articles, List.mem_filter]
  constructor
  · rintro ⟨hmem, hkeep⟩
    refine ⟨hmem, ?_⟩
    simp only [keepArticle, hparse, ← hoff, DAYS_LOOKBACK] at hkeep
    simpa using of_decide_eq_true hkeep
  · rintro ⟨hmem, hle⟩
    refine ⟨hmem, ?_⟩
    simp only [keepArticle, hparse, ← hoff, DAYS_LOOKBACK]
    simpa using hle

/-- Witness for C2's intended-behaviour theorem at a concrete record. -/
theorem prune_lookback_intended_witness :
    withinArt ∈ prune_old_articles cexNow [withinArt] DAYS_LOOKBACK ↔
      withinArt ∈ [withinArt] ∧ cexNow - 180 * 86400 * 1000000 ≤
        (⟨2026, 5, 30, 12, 0, 0, 0, some 0⟩ : PyDateTime).instantMicros :=
  prune_lookback_intended cexNow [withinArt] withinArt
    ⟨2026, 5, 30, 12, 0, 0, 0, some 0⟩ (by decide) (by decide)

/-- C10: pruning is total over malformed records — a record whose `published`
does not parse is silently dropped (the `ValueError` is caught; nothing is
raised), and a record whose parsed timestamp is naive is compared as if its
timestamp were UTC (`tzinfo` replaced by `timezone.utc`). -/
theorem prune_total_and_naive_utc (now : Int) (arts : List Article) (a : Article) :
    (fromisoformat a.published = none → a ∉ prune_old_articles now arts DAYS_LOOKBACK) ∧
    (∀ dt, fromisoformat a.published = some dt → dt.tzOffsetSeconds = none →
      (a ∈ prune_old_articles now arts DAYS_LOOKBACK ↔
        a ∈ arts ∧
          now - (DAYS_LOOKBACK : Int) * 86400 * 1000000 ≤
            ({ dt with tzOffsetSeconds := some 0 } : PyDateTime).instantMicros)) := by
  constructor
  · intro hnone hmem
    rw [prune_old_articles, List.mem_filter] at hmem
    simp [keepArticle, hnone] at hmem
  · intro dt hsome hnaive
    rw [prune_old_articles, List.mem_filter]
    simp [keepArticle, hsome, hnaive]

/-- Witness for C10: a record with unparseable `published` is dropped, and a
naive record is compared as UTC. -/
theorem prune_total_and_naive_utc_witness :
    badArt ∉ prune_old_articles cexNow [badArt] DAYS_LOOKBACK :=
  (prune_total_and_naive_utc cexNow [badArt] badArt).1 (by decide)

/-! ### Fetcher (fetch_news.py:62-102)

The HTTP request and XML parsing are outside the model; `fetch_google_news_rss`
below is the extraction loop of lines 74-99, applied to the parsed `<item>`
elements.  A network or XML error makes the real function return `[]` before
the loop, which corresponds to calling the model on the empty item list. -/

/-- Model of `re.sub(r"<[^>]+>", "", s)`: scanning left to right, an
occurrence of `<`, at least one non-`>` character, then `>` is deleted. -/
def stripTagsAux : List Char → List Char
  | [] => []
  | c :: cs =>
    if c = '<' then
      match cs.findIdx? (· = '>') with
      | some i => if 1 ≤ i then stripTagsAux (cs.drop (i + 1)) else c :: stripTagsAux cs
      | none => c :: stripTagsAux cs
    else c :: stripTagsAux cs
termination_by l => l.length
decreasing_by
  all_goals simp only [List.length_drop, List.length_cons]
  all_goals omega

def stripTags (s : String) : String := String.mk (stripTagsAux s.data)

/-- One `<item>` element of the feed: each child's text content, `none` when
the child element is absent (matching `item.find(...) is None`). -/
structure RssItem where
  title : Option String
  link : Option String
  description : Option String
  pubDate : Option String
  source : Option String
deriving Repr, DecidableEq

/-- Embedding of `el.text.strip() if el is not None and el.text else ""`. -/
def elText : Option String → String
  | some t => if t = "" then "" else pyStrip t
  | none => ""

/-- Embedding of `el.text if el is not None and el.text else ""`. -/
def elTextRaw (o : Option String) : String := o.getD ""

def itemTitle (it : RssItem) : String := elText it.title

def itemLink (it : RssItem) : String := elText it.link

/-- The description after `re.sub(r"<[^>]+>", "", desc).strip()`. -/
def itemDesc (it : RssItem) : String := pyStrip (stripTags (elTextRaw it.description))

def itemPubDate (it : RssItem) : String := elTextRaw it.pubDate

def itemSource (it : RssItem) : String := elText it.source

/-- Embedding of `iso_date = rfc2822_to_iso(pubdate) if pubdate else None` (line 90). -/
def itemIso (it : RssItem) : Option String :=
  if itemPubDate it = "" then none else rfc2822_to_iso (itemPubDate it)

/-- The body of the item loop (lines 75-99): the candidate is kept iff title,
link and normalized date are all non-empty / parseable. -/
def itemToArticle (it : RssItem) : Option Article :=
  match itemIso it with
  | some iso =>
    if itemTitle it != "" && itemLink it != "" then
      some { title := itemTitle it, link := itemLink it,
             description := (itemDesc it).take 400, published := iso,
             source := itemSource it, keyword := none }
    else none
  | none => none

/-- Embedding of `fetch_google_news_rss` (fetch_news.py:62-102), as a function of the
parsed `<item>` elements. -/
def fetch_google_news_rss (items : List RssItem) : List Article :=
  items.filterMap itemToArticle

/-- C6: the fetcher keeps exactly the candidates with a non-empty (stripped)
title, a non-empty (stripped) link, and a pubDate that `rfc2822_to_iso`
normalizes successfully; and `rfc2822_to_iso` yields the `none` sentinel
(rather than raising) whenever the RFC-2822 parse fails. -/
theorem fetch_filters_exactly_valid (items : List RssItem) :
    (∀ s, parsedate_to_datetime s = none → rfc2822_to_iso s = none) ∧
    fetch_google_news_rss items
      = (items.filter (fun it =>
            (itemTitle it != "" && itemLink it != "") && (itemIso it).isSome)).map
          (fun it => { title := itemTitle it, link := itemLink it,
                       description := (itemDesc it).take 400,
                       published := (itemIso it).getD "",
                       source := itemSource it, keyword := none }) := by
  refine ⟨fun s h => by simp [rfc2822_to_iso, h], ?_⟩
  induction items with
  | nil => rfl
  | cons it rest ih =>
    rw [fetch_google_news_rss, List.filterMap_cons, List.filter_cons]
    rw [fetch_google_news_rss] at ih
    cases hiso : itemIso it with
    | none => simp [itemToArticle, hiso, ih]
    | some iso =>
      by_cases hguard : (itemTitle it != "" && itemLink it != "") = true
      · simp [itemToArticle, hiso, hguard, ih]
      · simp [itemToArticle, hiso, Bool.not_eq_true _ ▸ hguard, ih]

/-! ### Store file (fetch_news.py:105-115)

The store file is modelled by its JSON document.  `json.dump(..., indent=2,
ensure_ascii=False)` and `json.load` are mutually inverse between documents
and UTF-8 file text for this data, so save-then-load is the identity on the
document, and reading the records out of the loaded document recovers the
saved list exactly. -/

inductive JValue where
  | jnull : JValue
  | jstr : String → JValue
  | jarr : List JValue → JValue
  | jobj : List (String × JValue) → JValue
deriving Repr

/-- The dict an article record serializes to (`keyword` present only when
`main` attached it). -/
def articleToJson (a : Article) : JValue :=
  JValue.jobj
    ([("title", JValue.jstr a.title), ("link", JValue.jstr a.link),
      ("description", JValue.jstr a.description),
      ("published", JValue.jstr a.published),
      ("source", JValue.jstr a.source)] ++
      (match a.keyword with
       | some k => [("keyword", JValue.jstr k)]
       | none => []))

/-- Embedding of `save_data` (fetch_news.py:112-115): the JSON document written to
`DATA_FILE` — always the full array, a complete rewrite. -/
def save_data (articles : List Article) : JValue :=
  JValue.jarr (articles.map articleToJson)

/-- Embedding of `load_existing_data` (fetch_news.py:105-109): the parsed store document
when the file exists (`none` models a missing file), else the empty list. -/
def load_existing_data (file : Option JValue) : JValue :=
  match file with
  | some doc => doc
  | none => JValue.jarr []

/-- Dict key lookup on a decoded JSON object. -/
def jlookup (fields : List (String × JValue)) (k : String) : Option JValue :=
  match fields with
  | [] => none
  | (k2, v) :: rest => if k2 == k then some v else jlookup rest k

def asStr : Option JValue → Option String
  | some (JValue.jstr s) => some s
  | _ => none

/-- Reading an article record back out of a loaded JSON object by key
lookup. -/
def jsonToArticle : JValue → Option Article
  | JValue.jobj fields =>
    (asStr (jlookup fields "title")).bind fun title =>
      (asStr (jlookup fields "link")).bind fun link =>
        (asStr (jlookup fields "description")).bind fun description =>
          (asStr (jlookup fields "published")).bind fun published =>
            (asStr (jlookup fields "source")).map fun s0 =>
              { title := title, link := link, description := description,
                published := published, source := s0,
                keyword := asStr (jlookup fields "keyword") }
  | _ => none

def jsonToArticleList : List JValue → Option (List Article)
  | [] => some []
  | j :: rest =>
    match jsonToArticle j, jsonToArticleList rest with
    | some a, some as => some (a :: as)
    | _, _ => none

/-- Reading the whole store document back into records. -/
def jsonToArticles : JValue → Option (List Article)
  | JValue.jarr elems => jsonToArticleList elems
  | _ => none

theorem jsonToArticle_articleToJson (a : Article) :
    jsonToArticle (articleToJson a) = some a := by
  obtain ⟨t, l, d, p, s, k⟩ := a
  cases k <;> rfl

theorem jsonToArticleList_map (R : List Article) :
    jsonToArticleList (R.map articleToJson) = some R := by
  induction R with
  | nil => rfl
  | cons a rest ih =>
    rw [List.map_cons, jsonToArticleList, jsonToArticle_articleToJson, ih]

/-- C5: the save/load round-trip is the identity — loading the store document
written by `save_data R` and reading its records yields exactly `R` (in the
same order, so in particular equal as record sets). -/
theorem load_save_roundtrip (R : List Article) :
    jsonToArticles (load_existing_data (some (save_data R))) = some R := by
  rw [load_existing_data, save_data, jsonToArticles, jsonToArticleList_map]

/-! ### Renderer (fetch_news.py:153-430)

The HTML template literals below are the exact literal text of the
f-strings in `article_html` and `generate_html`, split at the interpolation
sites (braces, apostrophes and double dashes appear as character escapes).
-/

def PAGE_TPL0 : String :=
  "<!DOCTYPE html>\n<html lang=\"en\">\n<head>\n  <meta charset=\"UTF-8\" />\n  <meta name=\"viewport\" content=\"width=device-width, initial-scale=1.0\" />\n  <title>GFV News Feed</title>\n  <style>\n    *, *::before, *::after \x7b box-sizing: border-box; margin: 0; padding: 0; \x7d\n\n    :root \x7b\n      \x2d\x2dbg:       #f9fafb;\n      \x2d\x2dsurface:  #ffffff;\n      \x2d\x2dborder:   #e5e7eb;\n      \x2d\x2dtext:     #111827;\n      \x2d\x2dmuted:    #6b7280;\n      \x2d\x2daccent:   #059669;\n      \x2d\x2dradius:   10px;\n      \x2d\x2dshadow:   0 1px 3px rgba(0,0,0,.08), 0 1px 2px rgba(0,0,0,.06);\n    \x7d\n\n    body \x7b\n      font-family: -apple-system, BlinkMacSystemFont, \"Segoe UI\", Roboto, sans-serif;\n      background: var(\x2d\x2dbg);\n      color: var(\x2d\x2dtext);\n      min-height: 100vh;\n      padding: 0 0 60px;\n    \x7d\n\n    /* ── Header ── */\n    .site-header \x7b\n      background: var(\x2d\x2dsurface);\n      border-bottom: 1px solid var(\x2d\x2dborder);\n      padding: 24px 20px 18px;\n      position: sticky;\n      top: 0;\n      z-index: 10;\n    \x7d\n    .header-inner \x7b\n      max-width: 860px;\n      margin: 0 auto;\n    \x7d\n    .site-header h1 \x7b\n      font-size: 1.35rem;\n      font-weight: 700;\n      color: var(\x2d\x2daccent);\n      letter-spacing: -0.3px;\n    \x7d\n    .header-meta \x7b\n      font-size: .78rem;\n      color: var(\x2d\x2dmuted);\n      margin-top: 4px;\n    \x7d\n\n    /* ── Filters ── */\n    .filters \x7b\n      max-width: 860px;\n      margin: 20px auto 0;\n      padding: 0 20px;\n      display: flex;\n      flex-wrap: wrap;\n      gap: 8px;\n    \x7d\n    .filter-btn \x7b\n      border: 1.5px solid var(\x2d\x2dborder);\n      background: var(\x2d\x2dsurface);\n      color: var(\x2d\x2dtext);\n      padding: 5px 13px;\n      border-radius: 20px;\n      font-size: .8rem;\n      font-weight: 500;\n      cursor: pointer;\n      transition: all .15s;\n      display: inline-flex;\n      align-items: center;\n      gap: 5px;\n    \x7d\n    .filter-btn:hover \x7b border-color: var(\x2d\x2daccent); color: var(\x2d\x2daccent); \x7d\n    .filter-btn.active \x7b\n      background: var(\x2d\x2dkw-bg, var(\x2d\x2daccent));\n      color: var(\x2d\x2dkw-fg, #fff);\n      border-color: transparent;\n    \x7d\n    .filter-btn .count \x7b\n      background: rgba(0,0,0,.08);\n      border-radius: 10px;\n      padding: 1px 6px;\n      font-size: .72rem;\n    \x7d\n\n    /* ── Article grid ── */\n    .articles-container \x7b\n      max-width: 860px;\n      margin: 22px auto 0;\n      padding: 0 20px;\n      display: grid;\n      grid-template-columns: 1fr;\n      gap: 14px;\n    \x7d\n\n    /* ── Card ── */\n    .article-card \x7b\n      background: var(\x2d\x2dsurface);\n      border: 1px solid var(\x2d\x2dborder);\n      border-radius: var(\x2d\x2dradius);\n      padding: 16px 18px;\n      box-shadow: var(\x2d\x2dshadow);\n      transition: box-shadow .15s;\n    \x7d\n    .article-card:hover \x7b box-shadow: 0 4px 12px rgba(0,0,0,.1); \x7d\n    .article-card.hidden \x7b display: none; \x7d\n\n    .card-header \x7b\n      display: flex;\n      align-items: center;\n      justify-content: space-between;\n      margin-bottom: 8px;\n    \x7d\n    .badge \x7b\n      font-size: .7rem;\n      font-weight: 600;\n      padding: 2px 9px;\n      border-radius: 12px;\n      letter-spacing: .3px;\n      text-transform: uppercase;\n    \x7d\n    .pub-date \x7b\n      font-size: .75rem;\n      color: var(\x2d\x2dmuted);\n    \x7d\n\n    .article-title \x7b\n      font-size: .95rem;\n      font-weight: 600;\n      line-height: 1.4;\n      margin-bottom: 7px;\n    \x7d\n    .article-title a \x7b\n      color: var(\x2d\x2dtext);\n      text-decoration: none;\n    \x7d\n    .article-title a:hover \x7b color: var(\x2d\x2daccent); text-decoration: underline; \x7d\n\n    .article-desc \x7b\n      font-size: .83rem;\n      color: var(\x2d\x2dmuted);\n      line-height: 1.55;\n      margin-bottom: 10px;\n      display: -webkit-box;\n      -webkit-line-clamp: 2;\n      -webkit-box-orient: vertical;\n      overflow: hidden;\n    \x7d\n\n    .card-footer \x7b\n      font-size: .75rem;\n      color: var(\x2d\x2dmuted);\n    \x7d\n    .source-name \x7b font-weight: 500; \x7d\n\n    /* ── Empty state ── */\n    .empty-state \x7b\n      text-align: center;\n      padding: 60px 20px;\n      color: var(\x2d\x2dmuted);\n    \x7d\n\n    /* ── Responsive ── */\n    @media (min-width: 600px) \x7b\n      .articles-container \x7b grid-template-columns: 1fr 1fr; \x7d\n    \x7d\n  </style>\n</head>\n<body>\n\n<header class=\"site-header\">\n  <div class=\"header-inner\">\n    <h1>🟢\t GFV News Feed</h1>\n    <p class=\"header-meta\">\n      "

def PAGE_TPL1 : String :=
  " article"

def PAGE_TPL2 : String :=
  " from the last "

def PAGE_TPL3 : String :=
  " days\n      &nbsp;·&nbsp; Updated "

def PAGE_TPL4 : String :=
  "\n    </p>\n  </div>\n</header>\n\n<div class=\"filters\">\n  "

def PAGE_TPL5 : String :=
  "\n</div>\n\n<div class=\"articles-container\" id=\"articles-container\">\n  "

def PAGE_TPL6 : String :=
  "\n</div>\n\n<script>\n  function filterBy(keyword, btn) \x7b\n    // Update active button\n    document.querySelectorAll(\x27.filter-btn\x27).forEach(b => b.classList.remove(\x27active\x27));\n    if (btn) btn.classList.add(\x27active\x27);\n\n    // Show/hide cards\n    document.querySelectorAll(\x27.article-card\x27).forEach(card => \x7b\n      if (keyword === \x27all\x27 || card.dataset.keyword === keyword) \x7b\n        card.classList.remove(\x27hidden\x27);\n      \x7d else \x7b\n        card.classList.add(\x27hidden\x27);\n      \x7d\n    \x7d);\n  \x7d\n</script>\n\n</body>\n</html>\n"

def CARD_TPL0 : String :=
  "\n    <div class=\"article-card\" data-keyword=\""

def CARD_TPL1 : String :=
  "\">\n      <div class=\"card-header\">\n        <span class=\"badge\" style=\"background:"

def CARD_TPL2 : String :=
  ";color:"

def CARD_TPL3 : String :=
  "\">"

def CARD_TPL4 : String :=
  "</span>\n        <span class=\"pub-date\">"

def CARD_TPL5 : String :=
  "</span>\n      </div>\n      <h3 class=\"article-title\">\n        <a href=\""

def CARD_TPL6 : String :=
  "\" target=\"_blank\" rel=\"noopener noreferrer\">"

def CARD_TPL7 : String :=
  "</a>\n      </h3>\n      "

def CARD_TPL8 : String :=
  "\n      <div class=\"card-footer\">\n        <span class=\"source-name\">📰 "

def CARD_TPL9 : String :=
  "</span>\n      </div>\n    </div>"

def EMPTY_STATE_TPL : String :=
  "\n        <div class=\"empty-state\">\n          <p>No news found yet. The feed will populate on the next scheduled run.</p>\n        </div>"

/-- Replace every non-overlapping occurrence of the pattern `p :: ps`,
scanning left to right. -/
def replaceAux (p : Char) (ps : List Char) (rep : List Char) : List Char → List Char
  | [] => []
  | c :: cs =>
    if (p :: ps).isPrefixOf (c :: cs) then rep ++ replaceAux p ps rep (List.drop ps.length cs)
    else c :: replaceAux p ps rep cs
termination_by l => l.length
decreasing_by
  all_goals simp only [List.length_drop, List.length_cons]
  all_goals omega

/-- Model of Python `str.replace` (the script only calls it with non-empty
patterns). -/
def strReplace (s pat rep : String) : String :=
  match pat.data with
  | [] => s
  | p :: ps => String.mk (replaceAux p ps rep.data s.data)

/-- The title escaping of `article_html` (line 163):
`.replace('"', "&quot;").replace("<", "&lt;")`. -/
def escTitle (s : String) : String :=
  strReplace (strReplace s "\"" "&quot;") "<" "&lt;"

/-- The description escaping of `article_html` (line 164):
`.replace("<", "&lt;").replace('"', "&quot;")`. -/
def escDesc (s : String) : String :=
  strReplace (strReplace s "<" "&lt;") "\"" "&quot;"

/-- The spec's escaping rule, stated character-wise: `"` becomes `&quot;`,
`<` becomes `&lt;`, and every other character is left untouched. -/
def escapeSpec (s : String) : String :=
  String.mk (s.data.foldr (fun c acc =>
    (if c = '"' then "&quot;".data else if c = '<' then "&lt;".data else [c]) ++ acc) [])

def KEYWORDS_LABELS : List String :=
  ["Green Flag Ventures", "GFV", "Justin Zeefee", "Deborah Fairlamb"]

def KEYWORD_COLORS : List (String × String × String) :=
  [("Green Flag Ventures", "#d1fae5", "#065f46"),
   ("GFV", "#dbeafe", "#1e3a8a"),
   ("Justin Zeefee", "#fef3c7", "#92400e"),
   ("Deborah Fairlamb", "#ede9fe", "#4c1d95")]

/-- Embedding of `KEYWORD_COLORS.get(keyword, ("#f3f4f6", "#374151"))`. -/
def lookupColor (kw : String) : String × String :=
  match KEYWORD_COLORS.find? (fun p => p.1 == kw) with
  | some p => (p.2.1, p.2.2)
  | none => ("#f3f4f6", "#374151")

def MONTH_ABBREV : List String :=
  ["Jan", "Feb", "Mar", "Apr", "May", "Jun", "Jul", "Aug", "Sep", "Oct", "Nov", "Dec"]

def MONTH_FULL : List String :=
  ["January", "February", "March", "April", "May", "June", "July", "August",
   "September", "October", "November", "December"]

/-- Embedding of `format_date` (fetch_news.py:153-158): `%b %-d, %Y` of the parsed ISO
timestamp, or the raw string when parsing fails. -/
def format_date (iso : String) : String :=
  match fromisoformat iso with
  | some dt =>
    (MONTH_ABBREV.getD (dt.month - 1) "") ++ " " ++ toString dt.day ++ ", " ++ toString dt.year
  | none => iso

/-- Embedding of `datetime.now(timezone.utc).strftime("%B %-d, %Y at %H:%M UTC")` as a
function of the clock instant. -/
def nowStr (now : Int) : String :=
  let secs : Int := Int.ediv now 1000000
  let sod : Nat := (Int.emod secs 86400).toNat
  let ymd := civilFromDays (Int.ediv secs 86400)
  (MONTH_FULL.getD (ymd.2.1 - 1) "") ++ " " ++ toString ymd.2.2 ++ ", " ++ toString ymd.1 ++
    " at " ++ padNum 2 (sod / 3600) ++ ":" ++ padNum 2 (sod % 3600 / 60) ++ " UTC"

/-- Embedding of `article_html` (fetch_news.py:161-182).  On the record shape the pipeline
produces (all keys present) `article.get("description", "")` is the
`description` field and `article.get("source", "Unknown")` the `source`
field. -/
def article_html (article : Article) (keyword : String) : String :=
  let bgfg := lookupColor keyword
  let title := escTitle article.title
  let desc := escDesc article.description
  let pub := format_date article.published
  CARD_TPL0 ++ keyword ++ CARD_TPL1 ++ bgfg.1 ++ CARD_TPL2 ++ bgfg.2 ++ CARD_TPL3 ++ keyword ++
    CARD_TPL4 ++ pub ++ CARD_TPL5 ++ article.link ++ CARD_TPL6 ++ title ++ CARD_TPL7 ++
    (if desc != "" then "<p class=\x27article-desc\x27>" ++ desc ++ "</p>" else "") ++
    CARD_TPL8 ++ article.source ++ CARD_TPL9

/-- The literal head of the "All" filter button (line 190), up to the point
where `str(total)` is interpolated. -/
def ALL_BTN_PRE : String :=
  "<button class=\"filter-btn active\" onclick=\"filterBy(\x27all\x27, this)\">All <span class=\"count\">"

/-- One per-keyword filter button (lines 191-197). -/
def kwButton (kw : String) (arts : List Article) : String :=
  let bgfg := lookupColor kw
  "    <button class=\"filter-btn\" onclick=\"filterBy(\x27" ++ kw ++ "\x27, this)\" " ++
    "style=\"\x2d\x2dkw-bg:" ++ bgfg.1 ++ ";\x2d\x2dkw-fg:" ++ bgfg.2 ++ "\">" ++ kw ++
    " <span class=\"count\">" ++ toString arts.length ++ "</span></button>\n"

/-- The `filter_buttons` accumulation of `generate_html` (lines 190-197);
the dict `articles_by_keyword` is its insertion-ordered pair list. -/
def filter_buttons_str (articles_by_keyword : List (String × List Article)) (total : Nat) :
    String :=
  articles_by_keyword.foldl (fun acc g => acc ++ kwButton g.1 g.2)
    (ALL_BTN_PRE ++ toString total ++ "</span></button>\n")

/-- Embedding of `sorted(all_articles, key=lambda x: x["published"], reverse=True)`:
a stable sort, descending in the `published` string. -/
def sortByPublishedDesc (l : List Article) : List Article :=
  l.mergeSort (fun a b => decide (b.published ≤ a.published))

/-- The `link → keyword` reverse lookup (lines 201-206): the first keyword
bucket containing the link wins; the dict is modelled by its
insertion-ordered pair list. -/
def link_to_kw (articles_by_keyword : List (String × List Article)) :
    List (String × String) :=
  articles_by_keyword.foldl (fun m g =>
    g.2.foldl (fun m a =>
      if (m.find? (fun p => p.1 == a.link)).isSome then m else m ++ [(a.link, g.1)]) m) []

/-- Embedding of `link_to_kw.get(a["link"], list(KEYWORDS.keys())[0])` (line 209). -/
def badgeKw (articles_by_keyword : List (String × List Article)) (a : Article) : String :=
  match (link_to_kw articles_by_keyword).find? (fun p => p.1 == a.link) with
  | some p => p.2
  | none => KEYWORDS_LABELS.getD 0 ""

/-- Model of `str.join`. -/
def strJoin (sep : String) : List String → String
  | [] => ""
  | [x] => x
  | x :: y :: rest => x ++ sep ++ strJoin sep (y :: rest)

/-- The `cards_html` join of `generate_html` (lines 208-211), before the
empty-state replacement. -/
def cards_html_joined (articles_by_keyword : List (String × List Article))
    (all_articles : List Article) : String :=
  strJoin "\n" ((sortByPublishedDesc all_articles).map
    (fun a => article_html a (badgeKw articles_by_keyword a)))

/-- Embedding of `generate_html` (fetch_news.py:185-430), as a function of the keyword
grouping, the merged record list, and the clock instant. -/
def generate_html (articles_by_keyword : List (String × List Article))
    (all_articles : List Article) (now : Int) : String :=
  PAGE_TPL0 ++ toString all_articles.length ++ PAGE_TPL1 ++
    (if all_articles.length != 1 then "s" else "") ++ PAGE_TPL2 ++ toString DAYS_LOOKBACK ++
    PAGE_TPL3 ++ nowStr now ++ PAGE_TPL4 ++
    filter_buttons_str articles_by_keyword all_articles.length ++ PAGE_TPL5 ++
    (if cards_html_joined articles_by_keyword all_articles = "" then EMPTY_STATE_TPL
     else cards_html_joined articles_by_keyword all_articles) ++ PAGE_TPL6

/-! ### Lemmas about the escaping functions -/

/-- Character-wise replacement (the single-character special case of
`str.replace`). -/
def charRep (c0 : Char) (rep : List Char) (l : List Char) : List Char :=
  l.foldr (fun c acc => (if c = c0 then rep else [c]) ++ acc) []

theorem replaceAux_single (c0 : Char) (rep : List Char) :
    ∀ l : List Char, replaceAux c0 [] rep l = charRep c0 rep l := by
  intro l
  induction l with
  | nil => simp [replaceAux, charRep]
  | cons c cs ih =>
    by_cases h : c = c0
    · subst h
      rw [replaceAux, if_pos (by simp [List.isPrefixOf])]
      simp [ih, charRep]
    · rw [replaceAux, if_neg (by simp [List.isPrefixOf]; exact fun he => h he.symm)]
      simp only [charRep, List.foldr_cons, if_neg h]
      rw [ih]
      rfl

theorem charRep_append (c0 : Char) (rep : List Char) (l1 l2 : List Char) :
    charRep c0 rep (l1 ++ l2) = charRep c0 rep l1 ++ charRep c0 rep l2 := by
  induction l1 with
  | nil => rfl
  | cons c cs ih =>
    simp only [charRep, List.cons_append, List.foldr_cons] at *
    rw [ih, List.append_assoc]

theorem charRep_lt_quot (l : List Char) :
    charRep '<' ("&lt;".data) (charRep '"' ("&quot;".data) l)
      = l.foldr (fun c acc =>
          (if c = '"' then "&quot;".data else if c = '<' then "&lt;".data else [c]) ++ acc)
          [] := by
  have hq : charRep '<' ("&lt;".data) ("&quot;".data) = "&quot;".data := by decide
  have hl : charRep '<' ("&lt;".data) ['<'] = "&lt;".data := by decide
  induction l with
  | nil => rfl
  | cons c cs ih =>
    have e : charRep '"' ("&quot;".data) (c :: cs)
        = (if c = '"' then "&quot;".data else [c]) ++ charRep '"' ("&quot;".data) cs := rfl
    rw [e, charRep_append, ih, List.foldr_cons]
    by_cases h1 : c = '"'
    · subst h1
      rw [if_pos rfl, if_pos rfl, hq]
    · rw [if_neg h1, if_neg h1]
      by_cases h2 : c = '<'
      · subst h2
        rw [if_pos rfl, hl]
      · rw [if_neg h2]
        have hc : charRep '<' ("&lt;".data) [c] = [c] := by simp [charRep, h2]
        rw [hc]

theorem charRep_quot_lt (l : List Char) :
    charRep '"' ("&quot;".data) (charRep '<' ("&lt;".data) l)
      = l.foldr (fun c acc =>
          (if c = '"' then "&quot;".data else if c = '<' then "&lt;".data else [c]) ++ acc)
          [] := by
  have hq2 : charRep '"' ("&quot;".data) ("&lt;".data) = "&lt;".data := by decide
  have hqq : charRep '"' ("&quot;".data) ['"'] = "&quot;".data := by decide
  induction l with
  | nil => rfl
  | cons c cs ih =>
    have e : charRep '<' ("&lt;".data) (c :: cs)
        = (if c = '<' then "&lt;".data else [c]) ++ charRep '<' ("&lt;".data) cs := rfl
    rw [e, charRep_append, ih, List.foldr_cons]
    by_cases h2 : c = '<'
    · subst h2
      rw [if_pos rfl, if_neg (by decide : ¬ ('<' : Char) = '"'), hq2]
    · rw [if_neg h2]
      by_cases h1 : c = '"'
      · subst h1
        rw [if_pos rfl, hqq]
      · rw [if_neg h1]
        have hc : charRep '"' ("&quot;".data) [c] = [c] := by simp [charRep, h1]
        rw [hc]

/-! ### Claim theorems: renderer -/

/-- C9, counterexample.  The claim says angle brackets are replaced by HTML
entities; in fact only `<` is replaced — a `>` in a title or description
passes through unescaped (it would have to become `&gt;` to be escaped). -/
theorem escaping_gt_cex :
    escTitle ">" = ">" ∧ escDesc ">" = ">" ∧ (">" : String) ≠ "&gt;" := by
  have e1 : escTitle ">"
      = String.mk (replaceAux '<' [] ("&lt;".data)
          (replaceAux '"' [] ("&quot;".data) (">".data))) := rfl
  have e2 : escDesc ">"
      = String.mk (replaceAux '"' [] ("&quot;".data)
          (replaceAux '<' [] ("&lt;".data) (">".data))) := rfl
  rw [e1, e2, replaceAux_single, replaceAux_single, replaceAux_single, replaceAux_single]
  exact ⟨by decide, by decide, by decide⟩

/-- C9, amended: the rendering of title and description applies exactly
double-quote and left-angle-bracket escaping — `"` becomes `&quot;`, `<`
becomes `&lt;`, and no other character (in particular not `>`) is altered —
and the two replacement orders used for title and description coincide. -/
theorem escaping_exact (s : String) :
    escTitle s = escapeSpec s ∧ escDesc s = escapeSpec s := by
  constructor
  · have e : escTitle s
        = String.mk (replaceAux '<' [] ("&lt;".data)
            (replaceAux '"' [] ("&quot;".data) s.data)) := rfl
    rw [e, replaceAux_single, replaceAux_single, charRep_lt_quot]
    rfl
  · have e : escDesc s
        = String.mk (replaceAux '"' [] ("&quot;".data)
            (replaceAux '<' [] ("&lt;".data) s.data)) := rfl
    rw [e, replaceAux_single, replaceAux_single, charRep_quot_lt]
    rfl

theorem foldl_kwButton_init (abk : List (String × List Article)) :
    ∀ init : String,
      abk.foldl (fun acc g => acc ++ kwButton g.1 g.2) init
        = init ++ abk.foldl (fun acc g => acc ++ kwButton g.1 g.2) "" := by
  induction abk with
  | nil => intro init; simp
  | cons g rest ih =>
    intro init
    rw [List.foldl_cons, List.foldl_cons, ih (init ++ kwButton g.1 g.2),
      ih ("" ++ kwButton g.1 g.2)]
    simp [String.append_assoc]

/-- C7: both displayed totals — the summary-header count (directly after the
literal page head `PAGE_TPL0`, followed by the literal ` article`) and the
count on the "All" filter control (between the literal `ALL_BTN_PRE` and its
closing tag) — are the decimal rendering of `all_articles.length`. -/
theorem rendered_counts_eq_length (abk : List (String × List Article))
    (all_articles : List Article) (now : Int) :
    (∃ tail1 : String,
        generate_html abk all_articles now
          = PAGE_TPL0 ++ toString all_articles.length ++ PAGE_TPL1 ++ tail1) ∧
    (∃ pre2 tail2 : String,
        generate_html abk all_articles now
          = pre2 ++ (ALL_BTN_PRE ++ toString all_articles.length ++ "</span></button>\n")
              ++ tail2) := by
  constructor
  · exact ⟨(if all_articles.length != 1 then "s" else "") ++ PAGE_TPL2 ++
      toString DAYS_LOOKBACK ++ PAGE_TPL3 ++ nowStr now ++ PAGE_TPL4 ++
      filter_buttons_str abk all_articles.length ++ PAGE_TPL5 ++
      (if cards_html_joined abk all_articles = "" then EMPTY_STATE_TPL
       else cards_html_joined abk all_articles) ++ PAGE_TPL6,
      by simp only [generate_html, String.append_assoc]⟩
  · refine ⟨PAGE_TPL0 ++ toString all_articles.length ++ PAGE_TPL1 ++
        (if all_articles.length != 1 then "s" else "") ++ PAGE_TPL2 ++
        toString DAYS_LOOKBACK ++ PAGE_TPL3 ++ nowStr now ++ PAGE_TPL4,
      abk.foldl (fun acc g => acc ++ kwButton g.1 g.2) "" ++ PAGE_TPL5 ++
        (if cards_html_joined abk all_articles = "" then EMPTY_STATE_TPL
         else cards_html_joined abk all_articles) ++ PAGE_TPL6, ?_⟩
    rw [generate_html, filter_buttons_str, foldl_kwButton_init]
    simp only [String.append_assoc]

theorem article_html_ne_empty (a : Article) (k : String) : article_html a k ≠ "" := by
  intro h
  have hlen := congrArg String.length h
  simp only [article_html, String.length_append] at hlen
  rw [show String.length "" = 0 from rfl] at hlen
  have h0 : 0 < CARD_TPL0.length := by decide
  omega

theorem strJoin_cons_ne_empty (sep x : String) (xs : List String) (hx : x ≠ "") :
    strJoin sep (x :: xs) ≠ "" := by
  cases xs with
  | nil => simpa [strJoin] using hx
  | cons y rest =>
    have e : strJoin sep (x :: y :: rest) = x ++ sep ++ strJoin sep (y :: rest) := rfl
    rw [e]
    intro h
    have hlen := congrArg String.length h
    simp only [String.length_append] at hlen
    rw [show String.length "" = 0 from rfl] at hlen
    have hx0 : x.length ≠ 0 := by
      intro h0
      apply hx
      apply String.ext
      have h1 : x.data = [] := List.length_eq_zero.mp h0
      simpa using h1
    omega

theorem sortByPublishedDesc_perm (l : List Article) : (sortByPublishedDesc l).Perm l :=
  List.mergeSort_perm l _

theorem sortByPublishedDesc_sorted (l : List Article) :
    (sortByPublishedDesc l).Pairwise (fun a b => b.published ≤ a.published) := by
  have h := @List.sorted_mergeSort Article (fun a b => decide (b.published ≤ a.published))
    (fun a b c hab hbc => by
      simp only [decide_eq_true_eq] at hab hbc ⊢
      exact le_trans hbc hab)
    (fun a b => by
      simp only [Bool.or_eq_true, decide_eq_true_eq]
      exact le_total b.published a.published)
    l
  exact h.imp (fun hab => by simpa using hab)

theorem sortByPublishedDesc_ne_nil {l : List Article} (h : l ≠ []) :
    sortByPublishedDesc l ≠ [] := by
  intro h0
  have hlen := (sortByPublishedDesc_perm l).length_eq
  rw [h0] at hlen
  exact h (List.length_eq_zero.mp hlen.symm)

theorem cards_html_ne_empty (abk : List (String × List Article)) {l : List Article}
    (h : l ≠ []) : cards_html_joined abk l ≠ "" := by
  rw [cards_html_joined]
  cases hs : sortByPublishedDesc l with
  | nil => exact absurd hs (sortByPublishedDesc_ne_nil h)
  | cons a rest =>
    rw [List.map_cons]
    exact strJoin_cons_ne_empty _ _ _ (article_html_ne_empty a _)

/-- C8: for a non-empty merged record set, the page emits the card block in
the order `sortByPublishedDesc all_articles` — a permutation of the merged
set that is sorted by `published` descending (most recent first), each card
rendered by `article_html`. -/
theorem page_cards_sorted_desc (abk : List (String × List Article))
    (all_articles : List Article) (now : Int) (hne : all_articles ≠ []) :
    (∃ pre post : String,
        generate_html abk all_articles now
          = pre ++ cards_html_joined abk all_articles ++ post) ∧
    cards_html_joined abk all_articles
      = strJoin "\n" ((sortByPublishedDesc all_articles).map
          (fun a => article_html a (badgeKw abk a))) ∧
    (sortByPublishedDesc all_articles).Perm all_articles ∧
    (sortByPublishedDesc all_articles).Pairwise (fun a b => b.published ≤ a.published) := by
  refine ⟨⟨PAGE_TPL0 ++ toString all_articles.length ++ PAGE_TPL1 ++
      (if all_articles.length != 1 then "s" else "") ++ PAGE_TPL2 ++ toString DAYS_LOOKBACK ++
      PAGE_TPL3 ++ nowStr now ++ PAGE_TPL4 ++ filter_buttons_str abk all_articles.length ++
      PAGE_TPL5, PAGE_TPL6, ?_⟩, rfl, sortByPublishedDesc_perm _, sortByPublishedDesc_sorted _⟩
  rw [generate_html, if_neg (cards_html_ne_empty abk hne)]

/-- Witness for C8 at a concrete one-record set. -/
theorem page_cards_sorted_desc_witness :
    (∃ pre post : String,
        generate_html [("GFV", [withinArt])] [withinArt] cexNow
          = pre ++ cards_html_joined [("GFV", [withinArt])] [withinArt] ++ post) ∧
    cards_html_joined [("GFV", [withinArt])] [withinArt]
      = strJoin "\n" ((sortByPublishedDesc [withinArt]).map
          (fun a => article_html a (badgeKw [("GFV", [withinArt])] a))) ∧
    (sortByPublishedDesc [withinArt]).Perm [withinArt] ∧
    (sortByPublishedDesc [withinArt]).Pairwise (fun a b => b.published ≤ a.published) :=
  page_cards_sorted_desc [("GFV", [withinArt])] [withinArt] cexNow (by decide)

end FetchNews
